import Mathlib

/-!
Shallow embedding of the NOAH voice-assistant repository
(files combined_noah.py, chatbot_core.py, config.py).

The embedding models Python strings as Lean strings over their character
lists, with Python string operations (substring membership, replace, split,
strip, title, upper, lower, slicing) reimplemented as structurally
recursive, kernel-computable Lean functions that mirror CPython semantics
on ASCII input.  Effectful collaborators (speech output, the Gemini remote
client, the browser, the file system, the clock, random draws) are
modelled by an explicit environment record; the command router
process_command becomes a pure function from an environment, a router
state and an utterance to a list of emitted replies plus the successor
state.
-/

namespace NoahSpec

/-! ### Python string primitives -/

/-- Substring test on character lists: Python `needle in hay`. -/
def containsSubAux (needle : List Char) : List Char → Bool
| [] => needle.isEmpty
| c :: rest => needle.isPrefixOf (c :: rest) || containsSubAux needle rest

/-- Python `needle in hay` for strings. -/
def str_contains (hay needle : String) : Bool := containsSubAux needle.data hay.data

/-- Python `str.lower` (ASCII). -/
def py_lower (s : String) : String := ⟨s.data.map Char.toLower⟩

/-- Python `str.upper` (ASCII). -/
def py_upper (s : String) : String := ⟨s.data.map Char.toUpper⟩

/-- Python `str.strip()`: remove leading and trailing whitespace. -/
def py_strip (s : String) : String :=
  ⟨((s.data.dropWhile Char.isWhitespace).reverse.dropWhile Char.isWhitespace).reverse⟩

/-- Worker for `py_replace`; the fuel argument is the length of the input,
which bounds the number of steps since every step consumes at least one
character of the haystack. -/
def py_replaceAux (pat rep : List Char) : Nat → List Char → List Char
| _, [] => []
| 0, l => l
| Nat.succ n, c :: rest =>
  if pat.isPrefixOf (c :: rest) then
    rep ++ py_replaceAux pat rep n (List.drop (pat.length - 1) rest)
  else
    c :: py_replaceAux pat rep n rest

/-- Python `s.replace(pat, rep)`: replace all occurrences, left to right,
without overlap. -/
def py_replace (s pat rep : String) : String :=
  ⟨py_replaceAux pat.data rep.data s.data.length s.data⟩

/-- Worker for `py_split`, accumulating the current token reversed. -/
def py_splitAux : List Char → List Char → List String
| acc, [] => if acc.isEmpty then [] else [⟨acc.reverse⟩]
| acc, c :: rest =>
  if c.isWhitespace then
    if acc.isEmpty then py_splitAux [] rest else ⟨acc.reverse⟩ :: py_splitAux [] rest
  else py_splitAux (c :: acc) rest

/-- Python `str.split()` with no argument: split on whitespace runs,
discarding empty tokens. -/
def py_split (s : String) : List String := py_splitAux [] s.data

/-- Python `list.index(tok)` on a list of strings, as an option:
`none` models the ValueError raised when the token is absent. -/
def py_index (tok : String) : List String → Option Nat
| [] => none
| w :: ws => if w = tok then some 0 else (py_index tok ws).map (· + 1)

/-- Worker for `py_title`; the flag records whether the previous character
was a letter. -/
def py_titleAux : Bool → List Char → List Char
| _, [] => []
| prevAlpha, c :: rest =>
  if c.isAlpha then (if prevAlpha then c.toLower else c.toUpper) :: py_titleAux true rest
  else c :: py_titleAux false rest

/-- Python `str.title()` (ASCII): a word is a maximal run of letters; its
first letter is uppercased and the rest lowercased. -/
def py_title (s : String) : String := ⟨py_titleAux false s.data⟩

/-- Python `sep.join(parts)`. -/
def py_join (sep : String) : List String → String
| [] => ""
| [x] => x
| x :: y :: xs => x ++ sep ++ py_join sep (y :: xs)

/-- Python `s.startswith(pre)`. -/
def py_startswith (s pre : String) : Bool := pre.data.isPrefixOf s.data

/-- Python slice `s[:n]`. -/
def py_take (s : String) (n : Nat) : String := ⟨s.data.take n⟩

/-- Python slice `s[n:]`. -/
def py_drop (s : String) (n : Nat) : String := ⟨s.data.drop n⟩

/-- Python `len(s)`. -/
def py_len (s : String) : Nat := s.data.length

/-! ### config.py -/

/-- config.py: GEMINI_MODEL. -/
def GEMINI_MODEL : String := "gemini-1.5-flash"

/-- config.py: DEFAULT_CITY, the default city for weather queries. -/
def DEFAULT_CITY : String := "Mumbai"

/-- chatbot_core.py: the placeholder key value that load_gemini_api rejects. -/
def PLACEHOLDER_KEY : String := "YOUR_API_KEY_HERE"

/-! ### chatbot_core.py: EnhancedChatbot
The file defines the class twice; the second definition is the effective
one and is the one embedded here. -/

/-- Mutable fields of EnhancedChatbot.  The remote model object is
represented by the model name it was constructed with. -/
structure ChatbotState where
  model_type : Option String
  gemini_model : Option String
  api_key : Option String
  concise_mode : Bool
deriving DecidableEq

/-- EnhancedChatbot.__init__. -/
def initialChatbot : ChatbotState :=
  { model_type := none, gemini_model := none, api_key := none, concise_mode := true }

/-- Python truthiness of an optional string: None and the empty string are
falsy. -/
def keyTruthy : Option String → Bool
| none => false
| some s => !(s = "")

/-- Key resolution in load_gemini_api: the explicit argument if truthy,
else the environment variable, else the config value, else None. -/
def resolveApiKey (explicit envKey configKey : Option String) : Option String :=
  if keyTruthy explicit then explicit
  else if keyTruthy envKey then envKey
  else if keyTruthy configKey then configKey
  else none

/-- EnhancedChatbot.load_gemini_api.  The flag genaiOk tells whether the
calls into the google.generativeai client (configure and GenerativeModel)
succeed; when one of them raises, the except path returns False before any
assignment to gemini_model or model_type has happened. -/
def load_gemini_api (genaiOk : Bool) (explicit envKey configKey : Option String)
    (s : ChatbotState) : Bool × ChatbotState :=
  if !keyTruthy (resolveApiKey explicit envKey configKey)
      || resolveApiKey explicit envKey configKey = some PLACEHOLDER_KEY then
    (false, { s with api_key := resolveApiKey explicit envKey configKey })
  else if genaiOk then
    (true,
      { s with
        api_key := resolveApiKey explicit envKey configKey
        gemini_model := some GEMINI_MODEL
        model_type := some "gemini" })
  else
    (false, { s with api_key := resolveApiKey explicit envKey configKey })

/-- EnhancedChatbot.is_model_loaded. -/
def is_model_loaded (s : ChatbotState) : Bool :=
  s.model_type = some "gemini" && !s.gemini_model.isNone

/-- The five fixed user-facing strings of the except branch of
generate_gemini_response, selected by case-insensitive substring matching
on the error text. -/
def AUTH_ERROR_MSG : String := "API key error. Please check your Gemini API key in config.py."

/-- Quota branch message of the error classifier. -/
def QUOTA_ERROR_MSG : String := "API quota exceeded. Please check your usage limits."

/-- Safety branch message of the error classifier. -/
def SAFETY_ERROR_MSG : String := "Sorry, I cannot respond to that request due to safety filters."

/-- Network branch message of the error classifier. -/
def NETWORK_ERROR_MSG : String := "Network error. Please check your internet connection."

/-- Generic branch message of the error classifier. -/
def GENERIC_ERROR_MSG : String := "I encountered an error. Please try again in a moment."

/-- The except branch of generate_gemini_response: classify the raised
error message into one of five fixed replies. -/
def gemini_error_reply (msg : String) : String :=
  let error_msg := py_upper msg
  if str_contains error_msg "API_KEY" || str_contains error_msg "AUTHENTICATION" then
    AUTH_ERROR_MSG
  else if str_contains error_msg "QUOTA" || str_contains error_msg "LIMIT" then
    QUOTA_ERROR_MSG
  else if str_contains error_msg "BLOCKED" || str_contains error_msg "SAFETY" then
    SAFETY_ERROR_MSG
  else if str_contains error_msg "NETWORK" || str_contains error_msg "CONNECTION" then
    NETWORK_ERROR_MSG
  else
    GENERIC_ERROR_MSG

/-- The success path of generate_gemini_response applied to a non-empty
model output text: strip whitespace, hard-truncate to 800 characters with
an ellipsis marker, then strip one leading NOAH: label. -/
def gemini_postprocess (text : String) : String :=
  let clean := py_strip text
  let clean := if py_len clean > 800 then py_take clean 800 ++ "..." else clean
  if py_startswith clean "NOAH:" then py_strip (py_drop clean 5) else clean

/-! ### combined_noah.py: the command router -/

/-- Mutable fields of AdvancedNOAHWithAI that the router reads or writes. -/
structure RouterState where
  user_name : String
  user_data_name : String
  is_listening : Bool
  text_mode : Bool
  mic_available : Bool
  ai_model_loaded : Bool
deriving DecidableEq

/-- Environment of collaborator effects the router calls into: the clock,
the weather service, Wikipedia, the joke library, system probes, the
browser, the Gemini chatbot, and the random draws. -/
structure Env where
  timeStr : String
  dateStr : String
  weather : String → String
  wikiSummary : String → String
  joke : String
  sysInfo : String
  screenshotMsg : String
  cameraMsg : String
  browserOk : Bool
  tellMe : String → String
  openAppMsg : String → String
  ai : String → String
  apiStatus : String
  modelInfo : String
  loadOk : Bool
  greetIdx : Fin 3
  suggestIdx : Fin 3

/-- Result of one process_command step: the texts passed to say, the
successor state, and whether save_user_data was invoked. -/
structure RouterResult where
  replies : List String
  state : RouterState
  saved : Bool
deriving DecidableEq

/-- The dispatch outcome of the if/elif chain of process_command. -/
inductive Branch where
  | tellMe | loadModel | configStatus | textMode | voiceMode
  | greeting | time | date | weather | wikipedia
  | joke | system | screenshot | camera
  | search | youtube | googleSearch | openApp
  | nameSet | help | exitCmd | fallback
deriving DecidableEq

/-- The tell-me patterns of process_command, matched on the lowercased
query. -/
def tellMePatterns : List String :=
  ["tell me about", "what is", "explain", "describe",
   "information about", "write about", "generate information about"]

/-- The model-load phrases of process_command. -/
def loadPhrases : List String := ["load ai model", "initialize ai", "use gemini", "load gemini"]

/-- The greeting keywords of process_command. -/
def greetingWords : List String := ["hello", "hi", "hey", "good morning", "good afternoon"]

/-- The exit keywords of process_command. -/
def exitWords : List String := ["exit", "quit", "goodbye", "bye", "stop"]

/-- The if/elif dispatch of process_command, in source order. -/
def classify (q : String) : Branch :=
  if tellMePatterns.any (fun p => str_contains (py_lower q) p) then .tellMe
  else if loadPhrases.any (fun p => str_contains q p) then .loadModel
  else if str_contains q "config status" || str_contains q "api status" then .configStatus
  else if str_contains q "text mode" || str_contains q "switch to text" then .textMode
  else if str_contains q "voice mode" || str_contains q "switch to voice" then .voiceMode
  else if greetingWords.any (fun p => str_contains q p) then .greeting
  else if str_contains q "time" then .time
  else if str_contains q "date" || str_contains q "today" then .date
  else if str_contains q "weather" then .weather
  else if str_contains q "wikipedia" || str_contains q "search wikipedia" then .wikipedia
  else if str_contains q "joke" || str_contains q "funny" || str_contains q "humor" then .joke
  else if str_contains q "system" || str_contains q "status" || str_contains q "performance" then .system
  else if str_contains q "screenshot" || str_contains q "screen capture" then .screenshot
  else if str_contains q "camera" || str_contains q "video" then .camera
  else if str_contains q "search" then .search
  else if str_contains q "youtube" then .youtube
  else if str_contains q "google" && str_contains q "search" then .googleSearch
  else if str_contains q "open" then .openApp
  else if str_contains q "my name is" || str_contains q "call me" then .nameSet
  else if str_contains q "help" || str_contains q "commands" then .help
  else if exitWords.any (fun p => str_contains q p) then .exitCmd
  else .fallback

/-- smart_search reduced to the reply it returns: the opening message on
success, the failure message otherwise. -/
def smart_search_msg (browserOk : Bool) (plat query : String) : String :=
  if browserOk then "Opening " ++ plat ++ " and searching for " ++ query
  else "Could not open " ++ plat ++ ". Please check your default browser settings."

/-- The fixed greeting templates, indexed by the random draw. -/
def greetingChoice (name : String) (i : Fin 3) : String :=
  if i.val = 0 then "Hello " ++ name ++ "! How can I help you today?"
  else if i.val = 1 then "Hi there! I\x27m NOAH, ready to assist you with intelligent responses."
  else "Greetings " ++ name ++ "! What can I do for you today?"

/-- The fixed fallback suggestions, indexed by the random draw. -/
def suggestionChoice (i : Fin 3) : String :=
  if i.val = 0 then
    "I didn\x27t understand that command. Say \x27load ai model\x27 to enable advanced AI responses!"
  else if i.val = 1 then
    "Sorry, I didn\x27t catch that. Make sure your API key is set in config.py, then try \x27load ai model\x27."
  else
    "I\x27m not sure what you mean. Try searching: \x27youtube music videos\x27 or \x27search python tutorials\x27."

/-- Platform detection and keyword stripping of the generic search branch
of process_command (lines 579 to 592). -/
def searchBranchParse (q : String) : String × String :=
  let search_query := py_strip (py_replace q "search" "")
  if str_contains q "youtube" || str_contains q "video" then
    ("youtube", py_strip (py_replace (py_replace search_query "youtube" "") "video" ""))
  else if str_contains q "amazon" || str_contains q "buy" || str_contains q "shop" then
    ("amazon",
      py_strip (py_replace (py_replace (py_replace search_query "amazon" "") "buy" "") "shop" ""))
  else if str_contains q "github" || str_contains q "code" then
    ("github", py_strip (py_replace (py_replace search_query "github" "") "code" ""))
  else ("google", search_query)

/-- City extraction of the weather branch of process_command: the join of
the tokens after the first literal token in, else the configured default
city. -/
def extractCity (q : String) : String :=
  let words := py_split q
  match py_index "in" words with
  | some i => if i + 1 < words.length then py_join " " (words.drop (i + 1)) else DEFAULT_CITY
  | none => DEFAULT_CITY

/-- The help reply of process_command, interpolating DEFAULT_CITY. -/
def helpTextMsg : String :=
  "I can help you with many things! Here are some examples:\n\nAI Features (Powered by Google Gemini from config.py):\n• Say \x27tell me about Python\x27 for detailed AI-generated information\n• Ask any question for intelligent responses\n• Have natural conversations with advanced AI\n\nConfiguration Commands:\n• Say \x27config status\x27 to check API key status\n• Say \x27load ai model\x27 to initialize Gemini\n\n🔍 WEB SEARCH FEATURES:\n• Say \x27search machine learning\x27 - Google search\n• Say \x27youtube python tutorials\x27 - YouTube search  \n• Say \x27search python on github\x27 - GitHub search\n• Say \x27search laptop on amazon\x27 - Amazon search\n• Say \x27search einstein on wikipedia\x27 - Wikipedia search\n\nSystem Features:\n• Ask for time, date, or weather updates (default city: " ++ DEFAULT_CITY ++ ")\n• Request screenshots or camera access\n• Get system performance information\n\nOther Commands:\n• Tell jokes and get entertainment\n• Say \x27text mode\x27 to switch input methods\n• Say \x27exit\x27 when you\x27re done\n\nNote: All AI responses are powered by Google Gemini with settings from config.py!"

/-- AdvancedNOAHWithAI.process_command as a pure step function: the guard
on the empty query, then the dispatch of classify, each branch producing
its say texts and state updates.  Replies produced inside the helper
handle_tell_me_about and open_application are summarised by their
environment oracles; every other reply is the literal text of the source.
-/
def process_command (env : Env) (s : RouterState) (q : String) : RouterResult :=
  if q = "" then ⟨[], s, false⟩
  else
    match classify q with
    | .tellMe => ⟨[env.tellMe q], s, false⟩
    | .loadModel =>
        if env.loadOk then
          ⟨["Loading advanced Gemini AI model from configuration...",
            "Gemini AI model loaded successfully from config! I\x27m now powered by Google\x27s advanced AI."],
           { s with ai_model_loaded := true }, false⟩
        else
          ⟨["Loading advanced Gemini AI model from configuration...",
            "Failed to load Gemini AI model. Please check your API key in config.py file."],
           s, false⟩
    | .configStatus =>
        ⟨["Configuration status: " ++ env.apiStatus ++ ". Model: " ++ env.modelInfo], s, false⟩
    | .textMode => ⟨["Switched to text input mode"], { s with text_mode := true }, false⟩
    | .voiceMode =>
        if s.mic_available then
          ⟨["Switched to voice input mode"], { s with text_mode := false }, false⟩
        else
          ⟨["Voice mode is not available. Microphone not detected."], s, false⟩
    | .greeting => ⟨[greetingChoice s.user_name env.greetIdx], s, false⟩
    | .time => ⟨["The current time is " ++ env.timeStr], s, false⟩
    | .date => ⟨["Today is " ++ env.dateStr], s, false⟩
    | .weather =>
        ⟨["Weather in " ++ extractCity q ++ ": " ++ env.weather (extractCity q)], s, false⟩
    | .wikipedia =>
        let search_query := py_strip (py_replace (py_replace q "wikipedia" "") "search" "")
        if search_query ≠ "" then
          let wiki_result := env.wikiSummary search_query
          ⟨smart_search_msg env.browserOk "wikipedia" search_query ::
             (if py_len wiki_result < 200 then [wiki_result] else []), s, false⟩
        else ⟨["What would you like me to search on Wikipedia?"], s, false⟩
    | .joke => ⟨[env.joke], s, false⟩
    | .system => ⟨[env.sysInfo], s, false⟩
    | .screenshot => ⟨[env.screenshotMsg], s, false⟩
    | .camera => ⟨["Opening camera. Press Q to close.", env.cameraMsg], s, false⟩
    | .search =>
        let parsed := searchBranchParse q
        if parsed.2 ≠ "" then
          ⟨[smart_search_msg env.browserOk parsed.1 parsed.2], s, false⟩
        else ⟨["What would you like me to search for?"], s, false⟩
    | .youtube =>
        let search_query :=
          py_strip (py_replace (py_replace (py_replace q "youtube" "") "search" "") "on" "")
        if search_query ≠ "" then
          ⟨[smart_search_msg env.browserOk "youtube" search_query], s, false⟩
        else ⟨["What would you like me to search on YouTube?"], s, false⟩
    | .googleSearch =>
        let search_query :=
          py_strip (py_replace (py_replace (py_replace q "google" "") "search" "") "on" "")
        if search_query ≠ "" then
          ⟨[smart_search_msg env.browserOk "google" search_query], s, false⟩
        else ⟨["What would you like me to search on Google?"], s, false⟩
    | .openApp =>
        if str_contains q "notepad" then ⟨[env.openAppMsg "notepad"], s, false⟩
        else if str_contains q "calculator" then ⟨[env.openAppMsg "calc"], s, false⟩
        else if str_contains q "browser" || str_contains q "chrome" then
          ⟨[env.openAppMsg "browser"], s, false⟩
        else ⟨["Which application would you like me to open?"], s, false⟩
    | .nameSet =>
        let words := py_split q
        let tok := if str_contains q "my name is" then "is" else "me"
        match py_index tok words with
        | none => ⟨["I didn\x27t catch your name. Please try again."], s, false⟩
        | some i =>
            let new_name := py_join " " (words.drop (i + 1))
            if new_name ≠ "" then
              ⟨["Nice to meet you, " ++ py_title new_name ++ "!"],
               { s with user_name := py_title new_name, user_data_name := py_title new_name },
               true⟩
            else ⟨[], s, false⟩
    | .help => ⟨[helpTextMsg], s, false⟩
    | .exitCmd =>
        ⟨["Goodbye " ++ s.user_name ++ "! It was great helping you today with Google Gemini AI from config!"],
         { s with is_listening := false }, false⟩
    | .fallback =>
        if s.ai_model_loaded then
          let resp := env.ai q
          let resp :=
            if py_len resp > 200 then
              py_take resp 200 ++ "... Would you like me to elaborate on any part?"
            else resp
          ⟨[resp], s, false⟩
        else ⟨[suggestionChoice env.suggestIdx], s, false⟩

/-- The one silent path of the dispatch for a non-empty query: the
name-assignment branch found the trigger token but no tokens follow it, so
the if body is skipped without any say. -/
def nameBranchSilent (q : String) : Bool :=
  decide (classify q = Branch.nameSet) &&
    (match py_index (if str_contains q "my name is" then "is" else "me") (py_split q) with
     | none => false
     | some i => decide (py_join " " ((py_split q).drop (i + 1)) = ""))

/-- Oracle outputs that the source always produces as non-empty strings
(each return of handle_tell_me_about, tell_joke, get_system_info,
take_screenshot, open_camera, open_application, get_response and the
Wikipedia summary is a non-empty literal or carries a non-empty literal
prefix). -/
def EnvOk (env : Env) : Prop :=
  env.joke ≠ "" ∧ env.sysInfo ≠ "" ∧ env.screenshotMsg ≠ "" ∧ env.cameraMsg ≠ "" ∧
  (∀ q, env.tellMe q ≠ "") ∧ (∀ q, env.wikiSummary q ≠ "") ∧
  (∀ q, env.ai q ≠ "") ∧ (∀ a, env.openAppMsg a ≠ "")

/-- A concrete environment used to instantiate the universally quantified
theorems. -/
def env0 : Env :=
  { timeStr := "12:00 PM", dateStr := "Monday, January 05, 2026",
    weather := fun _ => "Sunny", wikiSummary := fun _ => "A summary.",
    joke := "A joke.", sysInfo := "System Status: ok", screenshotMsg := "Screenshot saved",
    cameraMsg := "Camera closed", browserOk := true, tellMe := fun _ => "Some information.",
    openAppMsg := fun a => "Opening " ++ a, ai := fun _ => "An answer.",
    apiStatus := "ok", modelInfo := "Google gemini-1.5-flash", loadOk := false,
    greetIdx := 0, suggestIdx := 0 }

/-- env0 with the greeting draw landing on the second template. -/
def envG1 : Env := { env0 with greetIdx := 1 }

/-- A concrete router state used to instantiate the universally
quantified theorems. -/
def rs0 : RouterState :=
  { user_name := "Rudra", user_data_name := "Rudra", is_listening := true,
    text_mode := false, mic_available := true, ai_model_loaded := false }

/-! ### Helper lemmas -/

/-- A string whose character list is empty is the empty string. -/
theorem eq_empty_of_data_eq_nil (s : String) (h : s.data = []) : s = "" := by
  cases s; simp_all

/-- Appending to a non-empty string on the left keeps it non-empty. -/
theorem append_ne_empty_left (a b : String) (h : a ≠ "") : a ++ b ≠ "" := by
  intro hc
  apply h
  have hd : a.data ++ b.data = [] := congrArg String.data hc
  exact eq_empty_of_data_eq_nil a (List.append_eq_nil.mp hd).1

/-- Appending to a non-empty string on the right keeps it non-empty. -/
theorem append_ne_empty_right (a b : String) (h : b ≠ "") : a ++ b ≠ "" := by
  intro hc
  apply h
  have hd : a.data ++ b.data = [] := congrArg String.data hc
  exact eq_empty_of_data_eq_nil b (List.append_eq_nil.mp hd).2

/-- The substring scan accepts any list it is a prefix of. -/
theorem containsSubAux_of_isPrefixOf (mid hay : List Char) (h : mid.isPrefixOf hay = true) :
    containsSubAux mid hay = true := by
  cases hay with
  | nil =>
      cases mid with
      | nil => rfl
      | cons c t => simp [List.isPrefixOf] at h
  | cons c rest => simp [containsSubAux, h]

/-- The substring scan is monotone under consing onto the haystack. -/
theorem containsSubAux_cons (mid : List Char) (c : Char) (hay : List Char)
    (h : containsSubAux mid hay = true) : containsSubAux mid (c :: hay) = true := by
  simp [containsSubAux, h]

/-- The substring scan is monotone under prepending onto the haystack. -/
theorem containsSubAux_append_left (pre mid hay : List Char)
    (h : containsSubAux mid hay = true) : containsSubAux mid (pre ++ hay) = true := by
  induction pre with
  | nil => simpa using h
  | cons c t ih => exact containsSubAux_cons mid c (t ++ hay) ih

/-- Python substring membership holds for an explicit infix occurrence. -/
theorem str_contains_mid (pre mid post : String) :
    str_contains (pre ++ mid ++ post) mid = true := by
  show containsSubAux mid.data (pre ++ mid ++ post).data = true
  have hd : (pre ++ mid ++ post).data = pre.data ++ (mid.data ++ post.data) := by
    show (pre.data ++ mid.data) ++ post.data = _
    exact List.append_assoc _ _ _
  rw [hd]
  refine containsSubAux_append_left _ _ _ (containsSubAux_of_isPrefixOf _ _ ?_)
  exact List.isPrefixOf_iff_prefix.mpr (List.prefix_append _ _)

/-- The empty utterance reaches no branch of the dispatch. -/
theorem classify_empty : classify "" = Branch.fallback := by decide

/-! ### Claim theorems -/

/-- C5: whenever load_gemini_api returns False, model_type and
gemini_model keep their prior values, so is_model_loaded stays false when
it was false before; and the key is resolved from the explicit argument,
then the environment variable, then the config value, in that priority. -/
theorem load_gemini_api_failure_frame (genaiOk : Bool)
    (explicit envKey configKey : Option String) (s : ChatbotState) :
    ((load_gemini_api genaiOk explicit envKey configKey s).1 = false →
       (load_gemini_api genaiOk explicit envKey configKey s).2.model_type = s.model_type ∧
       (load_gemini_api genaiOk explicit envKey configKey s).2.gemini_model = s.gemini_model ∧
       (is_model_loaded s = false →
         is_model_loaded (load_gemini_api genaiOk explicit envKey configKey s).2 = false)) ∧
    (keyTruthy explicit = true →
       (load_gemini_api genaiOk explicit envKey configKey s).2.api_key = explicit) ∧
    (keyTruthy explicit = false → keyTruthy envKey = true →
       (load_gemini_api genaiOk explicit envKey configKey s).2.api_key = envKey) ∧
    (keyTruthy explicit = false → keyTruthy envKey = false → keyTruthy configKey = true →
       (load_gemini_api genaiOk explicit envKey configKey s).2.api_key = configKey) := by
  have hkey : (load_gemini_api genaiOk explicit envKey configKey s).2.api_key
      = resolveApiKey explicit envKey configKey := by
    unfold load_gemini_api
    split_ifs <;> rfl
  refine ⟨?_, ?_, ?_, ?_⟩
  · unfold load_gemini_api
    split_ifs with hbad hok
    · exact fun _ => ⟨rfl, rfl, fun h => h⟩
    · intro hf
      exact absurd hf (by simp)
    · exact fun _ => ⟨rfl, rfl, fun h => h⟩
  · intro h1
    rw [hkey]
    unfold resolveApiKey
    rw [if_pos h1]
  · intro h1 h2
    rw [hkey]
    unfold resolveApiKey
    rw [if_neg (by simp [h1]), if_pos h2]
  · intro h1 h2 h3
    rw [hkey]
    unfold resolveApiKey
    rw [if_neg (by simp [h1]), if_neg (by simp [h2]), if_pos h3]

/-- C5 witness: a placeholder config key makes the load fail and leaves a
fresh adapter unloaded. -/
theorem load_gemini_api_failure_frame_witness :
    (load_gemini_api true none none (some "YOUR_API_KEY_HERE") initialChatbot).1 = false ∧
    (load_gemini_api true none none (some "YOUR_API_KEY_HERE") initialChatbot).2.model_type = none ∧
    (load_gemini_api true none none (some "YOUR_API_KEY_HERE") initialChatbot).2.gemini_model = none ∧
    is_model_loaded (load_gemini_api true none none (some "YOUR_API_KEY_HERE") initialChatbot).2
      = false := by
  have h :=
    (load_gemini_api_failure_frame true none none (some "YOUR_API_KEY_HERE") initialChatbot).1
      (by decide)
  exact ⟨by decide, h.1.trans (by decide), h.2.1.trans (by decide), h.2.2 (by decide)⟩

/-- C6 counterexample: an error message that contains quota
case-insensitively but also the API_KEY keyword is mapped to the auth
message, not to the quota-specific message, because the auth branch is
tested first. -/
theorem gemini_error_reply_quota_counterexample :
    str_contains (py_upper "API_KEY invalid and quota exceeded") "QUOTA" = true ∧
    gemini_error_reply "API_KEY invalid and quota exceeded" ≠ QUOTA_ERROR_MSG := by decide

/-- C6 amended: an error message containing quota case-insensitively is
mapped to the quota-specific message whenever it does not also match the
earlier auth branch; in every case with quota present the generic message
is never returned, and the reply is always one of the five fixed strings,
so the raw error never propagates. -/
theorem gemini_error_reply_quota (msg : String)
    (hq : str_contains (py_upper msg) "QUOTA" = true) :
    (str_contains (py_upper msg) "API_KEY" = false →
     str_contains (py_upper msg) "AUTHENTICATION" = false →
     gemini_error_reply msg = QUOTA_ERROR_MSG) ∧
    gemini_error_reply msg ≠ GENERIC_ERROR_MSG ∧
    gemini_error_reply msg ∈
      [AUTH_ERROR_MSG, QUOTA_ERROR_MSG, SAFETY_ERROR_MSG, NETWORK_ERROR_MSG,
       GENERIC_ERROR_MSG] := by
  refine ⟨?_, ?_, ?_⟩
  · intro hk ha
    simp [gemini_error_reply, hk, ha, hq]
  · unfold gemini_error_reply
    dsimp only
    split_ifs with h1 h2 h3 h4
    · decide
    · decide
    · decide
    · decide
    · simp [hq] at h2
  · unfold gemini_error_reply
    dsimp only
    split_ifs <;> simp

/-- C6 witness: a plain quota message gets the quota-specific reply. -/
theorem gemini_error_reply_quota_witness :
    gemini_error_reply "quota exceeded" = QUOTA_ERROR_MSG :=
  (gemini_error_reply_quota "quota exceeded" (by decide)).1 (by decide) (by decide)

/-- Truncating a string of more than 800 characters and appending the
ellipsis marker does not change whether it starts with the NOAH: label. -/
theorem py_startswith_truncate (t : String) (h : 800 < py_len t) :
    py_startswith (py_take t 800 ++ "...") "NOAH:" = py_startswith t "NOAH:" := by
  have hdata : (py_take t 800 ++ "...").data = t.data.take 800 ++ "...".data := rfl
  rw [Bool.eq_iff_iff]
  unfold py_startswith
  rw [hdata]
  simp only [ List.isPrefixOf_iff_prefix, List.prefix_iff_eq_take]
  have hlen : ("NOAH:".data).length = 5 := by decide
  have htake : List.take ("NOAH:".data).length (t.data.take 800 ++ "...".data)
      = List.take ("NOAH:".data).length t.data := by
    rw [hlen]
    rw [List.take_append_of_le_length]
    · rw [List.take_take]
      norm_num
    · rw [List.length_take]
      unfold py_len at h
      omega
  rw [htake]

/-- C7: for a non-empty model output, post-processing returns the
whitespace-trimmed text unchanged when it has at most 800 characters,
otherwise its first 800 characters followed by the ellipsis marker; a
leading NOAH: label is stripped from the result in either case. -/
theorem gemini_postprocess_spec (text : String) (h : text ≠ "") :
    (py_len (py_strip text) ≤ 800 → py_startswith (py_strip text) "NOAH:" = false →
       gemini_postprocess text = py_strip text) ∧
    (py_len (py_strip text) ≤ 800 → py_startswith (py_strip text) "NOAH:" = true →
       gemini_postprocess text = py_strip (py_drop (py_strip text) 5)) ∧
    (800 < py_len (py_strip text) → py_startswith (py_strip text) "NOAH:" = false →
       gemini_postprocess text = py_take (py_strip text) 800 ++ "...") ∧
    (800 < py_len (py_strip text) → py_startswith (py_strip text) "NOAH:" = true →
       gemini_postprocess text = py_strip (py_drop (py_take (py_strip text) 800 ++ "...") 5)) := by
  refine ⟨?_, ?_, ?_, ?_⟩ <;> intro h1 h2
  · have hc : ¬ py_len (py_strip text) > 800 := by omega
    unfold gemini_postprocess
    dsimp only
    rw [if_neg hc, if_neg (by simp [h2])]
  · have hc : ¬ py_len (py_strip text) > 800 := by omega
    unfold gemini_postprocess
    dsimp only
    rw [if_neg hc, if_pos h2]
  · have hc : py_len (py_strip text) > 800 := h1
    have hsw : ¬ py_startswith (py_take (py_strip text) 800 ++ "...") "NOAH:" = true := by
      rw [py_startswith_truncate (py_strip text) h1]
      simp [h2]
    unfold gemini_postprocess
    dsimp only
    rw [if_pos hc, if_neg hsw]
  · have hc : py_len (py_strip text) > 800 := h1
    have hsw : py_startswith (py_take (py_strip text) 800 ++ "...") "NOAH:" = true := by
      rw [py_startswith_truncate (py_strip text) h1]
      exact h2
    unfold gemini_postprocess
    dsimp only
    rw [if_pos hc, if_pos hsw]

/-- C7 witness: a short output with a leading label is trimmed and
unlabelled. -/
theorem gemini_postprocess_spec_witness :
    gemini_postprocess "  NOAH: hello  " = "hello" := by
  have h := (gemini_postprocess_spec "  NOAH: hello  " (by decide)).2.1 (by decide) (by decide)
  exact h.trans (by decide)

/-- C8: every utterance dispatched to the weather branch replies with the
weather of the extracted city, where the city is the join of the tokens
after the first literal token in when at least one token follows it, and
the configured default city otherwise. -/
theorem process_command_weather (env : Env) (s : RouterState) (q : String)
    (h : classify q = Branch.weather) :
    (process_command env s q).replies =
      ["Weather in " ++ extractCity q ++ ": " ++ env.weather (extractCity q)] ∧
    (∀ i, py_index "in" (py_split q) = some i →
       (i + 1 < (py_split q).length →
          extractCity q = py_join " " ((py_split q).drop (i + 1))) ∧
       (¬ i + 1 < (py_split q).length → extractCity q = DEFAULT_CITY)) ∧
    (py_index "in" (py_split q) = none → extractCity q = DEFAULT_CITY) := by
  have hq : q ≠ "" := by
    intro he
    rw [he] at h
    exact absurd h (by decide)
  refine ⟨?_, ?_, ?_⟩
  · simp [process_command, hq, h]
  · intro i hi
    constructor
    · intro hlt
      simp [extractCity, hi, hlt]
    · intro hlt
      simp [extractCity, hi, hlt]
  · intro hi
    simp [extractCity, hi]

/-- C8 witness: weather in Tokyo extracts Tokyo, and a bare weather query
falls back to the default city. -/
theorem process_command_weather_witness :
    (process_command env0 rs0 "weather in Tokyo").replies = ["Weather in Tokyo: Sunny"] ∧
    extractCity "weather" = "Mumbai" := by
  have h1 := (process_command_weather env0 rs0 "weather in Tokyo" (by decide)).1
  have h2 := (process_command_weather env0 rs0 "weather" (by decide)).2.2 (by decide)
  exact ⟨h1.trans (by decide), h2.trans (by decide)⟩

/-- C2 counterexample: the generic search branch on the utterance search
laptop on amazon keeps the connector word on in the query, so the query
passed to the handler is not laptop. -/
theorem search_amazon_counterexample :
    classify "search laptop on amazon" = Branch.search ∧
    (searchBranchParse "search laptop on amazon").2 ≠ "laptop" := by decide

/-- C2 amended: the generic search branch on search laptop on amazon
detects the amazon platform and passes the query laptop on: the search
token and the platform keyword are stripped but the connector word on is
kept. -/
theorem search_amazon_query (env : Env) (s : RouterState) :
    searchBranchParse "search laptop on amazon" = ("amazon", "laptop on") ∧
    (process_command env s "search laptop on amazon").replies =
      [smart_search_msg env.browserOk "amazon" "laptop on"] := by
  constructor
  · decide
  · have hcl : classify "search laptop on amazon" = Branch.search := by decide
    have hp : searchBranchParse "search laptop on amazon" = ("amazon", "laptop on") := by decide
    simp [process_command, hcl, hp, show ("search laptop on amazon" : String) ≠ "" from by decide,
      show ("laptop on" : String) ≠ "" from by decide]

/-- C2 witness: the concrete reply of the router on the amazon search
utterance carries the query with the connector word kept. -/
theorem search_amazon_query_witness :
    (process_command env0 rs0 "search laptop on amazon").replies =
      ["Opening amazon and searching for laptop on"] :=
  (search_amazon_query env0 rs0).2.trans (by decide)

/-- Every branch of the dispatch other than the exit branch leaves the
is_listening flag unchanged. -/
theorem is_listening_preserved (env : Env) (s : RouterState) (q : String)
    (h : classify q ≠ Branch.exitCmd) :
    (process_command env s q).state.is_listening = s.is_listening := by
  by_cases hq : q = ""
  · simp [process_command, hq]
  · cases hcl : classify q <;>
      simp only [process_command, if_neg hq, hcl] <;>
      first
        | rfl
        | (exact absurd hcl h)
        | ((repeat' split) <;> rfl)

/-- C9: an utterance dispatched to the exit branch halts the router in
that single step and the farewell reply interpolates the current profile
name; conversely any step that changes the is_listening flag is an exit
step and ends with the flag halted, so the exit branch is the only
transition into the halted state. -/
theorem process_command_exit (env : Env) (s : RouterState) (q : String) :
    (classify q = Branch.exitCmd →
       (process_command env s q).state.is_listening = false ∧
       (process_command env s q).replies =
         ["Goodbye " ++ s.user_name ++
           "! It was great helping you today with Google Gemini AI from config!"] ∧
       str_contains
         ("Goodbye " ++ s.user_name ++
           "! It was great helping you today with Google Gemini AI from config!")
         s.user_name = true) ∧
    ((process_command env s q).state.is_listening ≠ s.is_listening →
       classify q = Branch.exitCmd ∧
       (process_command env s q).state.is_listening = false) := by
  constructor
  · intro h
    have hq : q ≠ "" := by
      intro he
      rw [he] at h
      exact absurd h (by decide)
    refine ⟨?_, ?_, ?_⟩
    · simp [process_command, hq, h]
    · simp [process_command, hq, h]
    · exact str_contains_mid "Goodbye " s.user_name
        "! It was great helping you today with Google Gemini AI from config!"
  · intro hne
    by_cases hcl : classify q = Branch.exitCmd
    · refine ⟨hcl, ?_⟩
      have hq : q ≠ "" := by
        intro he
        rw [he] at hcl
        exact absurd hcl (by decide)
      simp [process_command, hq, hcl]
    · exact absurd (is_listening_preserved env s q hcl) hne

/-- C9 witness: the utterance bye halts the router and the farewell names
the user. -/
theorem process_command_exit_witness :
    (process_command env0 rs0 "bye").state.is_listening = false ∧
    (process_command env0 rs0 "bye").replies =
      ["Goodbye Rudra! It was great helping you today with Google Gemini AI from config!"] := by
  have h := (process_command_exit env0 rs0 "bye").1 (by decide)
  exact ⟨h.1, h.2.1.trans (by decide)⟩

/-- C10: greeting detection is plain substring containment, so any query
that escapes the five earlier rules and contains hi anywhere, even inside
a longer word, fires the greeting branch and short-circuits every later
branch. -/
theorem process_command_substring_greeting (env : Env) (s : RouterState) (q : String)
    (h1 : tellMePatterns.any (fun p => str_contains (py_lower q) p) = false)
    (h2 : loadPhrases.any (fun p => str_contains q p) = false)
    (h3 : str_contains q "config status" = false)
    (h4 : str_contains q "api status" = false)
    (h5 : str_contains q "text mode" = false)
    (h6 : str_contains q "switch to text" = false)
    (h7 : str_contains q "voice mode" = false)
    (h8 : str_contains q "switch to voice" = false)
    (h9 : str_contains q "hi" = true) :
    classify q = Branch.greeting ∧
    (process_command env s q).replies = [greetingChoice s.user_name env.greetIdx] := by
  have hq : q ≠ "" := by
    intro he
    rw [he] at h9
    exact absurd h9 (by decide)
  have hg : greetingWords.any (fun p => str_contains q p) = true :=
    List.any_eq_true.mpr ⟨"hi", by decide, h9⟩
  have hcl : classify q = Branch.greeting := by
    unfold classify
    rw [if_neg (by simp [h1]), if_neg (by simp [h2]), if_neg (by simp [h3, h4]),
      if_neg (by simp [h5, h6]), if_neg (by simp [h7, h8]), if_pos (by simp [hg])]
  exact ⟨hcl, by simp [process_command, hq, hcl]⟩

/-- C10 witness: the utterance this, which contains hi inside a longer
word, is dispatched to the greeting branch. -/
theorem process_command_substring_greeting_witness :
    classify "this" = Branch.greeting ∧
    (process_command env0 rs0 "this").replies = [greetingChoice "Rudra" 0] :=
  process_command_substring_greeting env0 rs0 "this" (by decide) (by decide) (by decide)
    (by decide) (by decide) (by decide) (by decide) (by decide) (by decide)

/-- C3 counterexample: after my name is alex, a greeting whose random
draw lands on the second template produces a fixed reply that does not
mention Alex, so not every draw interpolates the stored name. -/
theorem greeting_name_counterexample :
    (process_command envG1 (process_command env0 rs0 "my name is alex").state "hello").replies =
      ["Hi there! I\x27m NOAH, ready to assist you with intelligent responses."] ∧
    str_contains "Hi there! I\x27m NOAH, ready to assist you with intelligent responses." "Alex"
      = false := by decide

/-- C3 amended: after my name is alex sets the profile name to Alex,
every subsequent greeting-triggering utterance whose random draw is the
first or the third template produces a reply that interpolates Alex; the
second template is a fixed string without the name. -/
theorem greeting_name_interpolation (env env2 : Env) (s : RouterState) (q : String)
    (hq : classify q = Branch.greeting) (hidx : env2.greetIdx ≠ (1 : Fin 3)) :
    ∀ r ∈ (process_command env2 (process_command env s "my name is alex").state q).replies,
      str_contains r "Alex" = true := by
  have hq' : q ≠ "" := by
    intro he
    rw [he] at hq
    exact absurd hq (by decide)
  set s1 := (process_command env s "my name is alex").state with hs1
  have hname : s1.user_name = "Alex" := by
    rw [hs1]
    rfl
  intro r hr
  simp only [process_command, if_neg hq', hq] at hr
  rw [hname] at hr
  simp only [List.mem_singleton] at hr
  subst hr
  have hall : ∀ i : Fin 3, i ≠ 1 → str_contains (greetingChoice "Alex" i) "Alex" = true := by
    decide
  exact hall env2.greetIdx hidx

/-- C3 witness: with the first template drawn, the greeting after the
name assignment contains Alex. -/
theorem greeting_name_interpolation_witness :
    str_contains "Hello Alex! How can I help you today?" "Alex" = true :=
  greeting_name_interpolation env0 env0 rs0 "hello" (by decide) (by decide) _ (by decide)

/-- C4 counterexample: the utterance my name is reaches the
name-assignment branch with no tokens after is, and the router emits no
reply at all instead of the clarification reply the claim promises, while
the state is unchanged. -/
theorem name_assignment_counterexample :
    classify "my name is" = Branch.nameSet ∧
    (process_command env0 rs0 "my name is").replies = [] ∧
    (process_command env0 rs0 "my name is").state = rs0 := by decide

/-- C4 amended: in the name-assignment branch, when the trigger token is
present and at least one token follows it, the new profile name is the
join of all tokens after its first occurrence, title-cased, stored and
persisted, with a greeting reply; when the trigger token is present with
no tokens after it the router emits no reply and leaves the state
unchanged; when the trigger token is absent from the token list the
clarification reply is given. -/
theorem name_assignment_spec (env : Env) (s : RouterState) (q : String)
    (h : classify q = Branch.nameSet) :
    (∀ i, py_index (if str_contains q "my name is" then "is" else "me") (py_split q) = some i →
       (py_join " " ((py_split q).drop (i + 1)) ≠ "" →
          (process_command env s q).state.user_name =
            py_title (py_join " " ((py_split q).drop (i + 1))) ∧
          (process_command env s q).state.user_data_name =
            py_title (py_join " " ((py_split q).drop (i + 1))) ∧
          (process_command env s q).saved = true ∧
          (process_command env s q).replies =
            ["Nice to meet you, " ++ py_title (py_join " " ((py_split q).drop (i + 1))) ++ "!"]) ∧
       (py_join " " ((py_split q).drop (i + 1)) = "" →
          (process_command env s q).replies = [] ∧ (process_command env s q).state = s)) ∧
    (py_index (if str_contains q "my name is" then "is" else "me") (py_split q) = none →
       (process_command env s q).replies = ["I didn\x27t catch your name. Please try again."]) := by
  have hq : q ≠ "" := by
    intro he
    rw [he] at h
    exact absurd h (by decide)
  refine ⟨?_, ?_⟩
  · intro i hi
    constructor
    · intro hne
      simp [process_command, if_neg hq, h, hi, hne]
    · intro hz
      simp [process_command, if_neg hq, h, hi, hz]
  · intro hi
    simp [process_command, if_neg hq, h, hi]

/-- C4 witness: my name is alex smith stores the title-cased join of the
two trailing tokens. -/
theorem name_assignment_spec_witness :
    (process_command env0 rs0 "my name is alex smith").state.user_name = "Alex Smith" ∧
    (process_command env0 rs0 "my name is alex smith").saved = true := by
  have h := ((name_assignment_spec env0 rs0 "my name is alex smith" (by decide)).1 2
    (by decide)).1 (by decide)
  exact ⟨h.1.trans (by decide), h.2.2.1⟩

/-- Helper: a singleton reply list of a non-empty string has only
non-empty members. -/
theorem forall_mem_singleton_ne (a : String) (h : a ≠ "") : ∀ r ∈ [a], r ≠ "" := by
  intro r hr
  rw [List.mem_singleton] at hr
  subst hr
  exact h

/-- Helper: a two-element reply list of non-empty strings has only
non-empty members. -/
theorem forall_mem_pair_ne (a b : String) (ha : a ≠ "") (hb : b ≠ "") :
    ∀ r ∈ [a, b], r ≠ "" := by
  intro r hr
  rcases List.mem_cons.mp hr with rfl | hr
  · exact ha
  · rw [List.mem_singleton] at hr
    subst hr
    exact hb

/-- Every greeting template is a non-empty string. -/
theorem greetingChoice_ne_empty (name : String) (i : Fin 3) : greetingChoice name i ≠ "" := by
  unfold greetingChoice
  split_ifs
  · exact append_ne_empty_right _ _ (by decide)
  · decide
  · exact append_ne_empty_right _ _ (by decide)

/-- Every fallback suggestion is a non-empty string. -/
theorem suggestionChoice_ne_empty (i : Fin 3) : suggestionChoice i ≠ "" := by
  unfold suggestionChoice
  split_ifs <;> decide

/-- Both replies of smart_search are non-empty strings. -/
theorem smart_search_msg_ne_empty (b : Bool) (p r : String) : smart_search_msg b p r ≠ "" := by
  unfold smart_search_msg
  split_ifs
  · exact append_ne_empty_left _ _ (append_ne_empty_right _ _ (by decide))
  · exact append_ne_empty_right _ _ (by decide)

/-- C1 counterexample: the utterance call me reaches the name-assignment
branch, finds the trigger token me with nothing after it, and the router
returns without emitting any reply, refuting the claim that every
utterance produces a non-empty reply. -/
theorem router_reply_counterexample :
    classify "call me" = Branch.nameSet ∧
    (process_command env0 rs0 "call me").replies = [] := by decide

/-- C1 amended: the router is a total function that never raises, and for
every non-empty utterance outside the one silent path (the
name-assignment branch with no tokens after the trigger token) it emits
at least one reply; every emitted reply is a non-empty string provided
the collaborator oracles return non-empty strings, which the source
guarantees by construction. -/
theorem router_total_nonempty_reply (env : Env) (s : RouterState) (q : String)
    (henv : EnvOk env) (hq : q ≠ "") (hsilent : nameBranchSilent q = false) :
    (process_command env s q).replies ≠ [] ∧
    ∀ r ∈ (process_command env s q).replies, r ≠ "" := by
  obtain ⟨hj, hsys, hscr, hcam, htell, hwiki, hai, hopen⟩ := henv
  cases hcl : classify q
  case tellMe =>
    simp only [process_command, if_neg hq, hcl]
    exact ⟨by simp, forall_mem_singleton_ne _ (htell q)⟩
  case loadModel =>
    simp only [process_command, if_neg hq, hcl]
    split_ifs <;> exact ⟨by simp, forall_mem_pair_ne _ _ (by decide) (by decide)⟩
  case configStatus =>
    simp only [process_command, if_neg hq, hcl]
    exact ⟨by simp, forall_mem_singleton_ne _
      (append_ne_empty_left _ _ (append_ne_empty_right _ _ (by decide)))⟩
  case textMode =>
    simp only [process_command, if_neg hq, hcl]
    exact ⟨by simp, forall_mem_singleton_ne _ (by decide)⟩
  case voiceMode =>
    simp only [process_command, if_neg hq, hcl]
    split_ifs <;> exact ⟨by simp, forall_mem_singleton_ne _ (by decide)⟩
  case greeting =>
    simp only [process_command, if_neg hq, hcl]
    exact ⟨by simp, forall_mem_singleton_ne _ (greetingChoice_ne_empty _ _)⟩
  case time =>
    simp only [process_command, if_neg hq, hcl]
    exact ⟨by simp, forall_mem_singleton_ne _ (append_ne_empty_left _ _ (by decide))⟩
  case date =>
    simp only [process_command, if_neg hq, hcl]
    exact ⟨by simp, forall_mem_singleton_ne _ (append_ne_empty_left _ _ (by decide))⟩
  case weather =>
    simp only [process_command, if_neg hq, hcl]
    exact ⟨by simp, forall_mem_singleton_ne _
      (append_ne_empty_left _ _ (append_ne_empty_right _ _ (by decide)))⟩
  case wikipedia =>
    simp only [process_command, if_neg hq, hcl]
    split_ifs
    · exact ⟨by simp, forall_mem_pair_ne _ _ (smart_search_msg_ne_empty _ _ _) (hwiki _)⟩
    · exact ⟨by simp, forall_mem_singleton_ne _ (smart_search_msg_ne_empty _ _ _)⟩
    · exact ⟨by simp, forall_mem_singleton_ne _ (by decide)⟩
  case joke =>
    simp only [process_command, if_neg hq, hcl]
    exact ⟨by simp, forall_mem_singleton_ne _ hj⟩
  case system =>
    simp only [process_command, if_neg hq, hcl]
    exact ⟨by simp, forall_mem_singleton_ne _ hsys⟩
  case screenshot =>
    simp only [process_command, if_neg hq, hcl]
    exact ⟨by simp, forall_mem_singleton_ne _ hscr⟩
  case camera =>
    simp only [process_command, if_neg hq, hcl]
    exact ⟨by simp, forall_mem_pair_ne _ _ (by decide) hcam⟩
  case search =>
    simp only [process_command, if_neg hq, hcl]
    split_ifs
    · exact ⟨by simp, forall_mem_singleton_ne _ (smart_search_msg_ne_empty _ _ _)⟩
    · exact ⟨by simp, forall_mem_singleton_ne _ (by decide)⟩
  case youtube =>
    simp only [process_command, if_neg hq, hcl]
    split_ifs
    · exact ⟨by simp, forall_mem_singleton_ne _ (smart_search_msg_ne_empty _ _ _)⟩
    · exact ⟨by simp, forall_mem_singleton_ne _ (by decide)⟩
  case googleSearch =>
    simp only [process_command, if_neg hq, hcl]
    split_ifs
    · exact ⟨by simp, forall_mem_singleton_ne _ (smart_search_msg_ne_empty _ _ _)⟩
    · exact ⟨by simp, forall_mem_singleton_ne _ (by decide)⟩
  case openApp =>
    simp only [process_command, if_neg hq, hcl]
    split_ifs
    · exact ⟨by simp, forall_mem_singleton_ne _ (hopen _)⟩
    · exact ⟨by simp, forall_mem_singleton_ne _ (hopen _)⟩
    · exact ⟨by simp, forall_mem_singleton_ne _ (hopen _)⟩
    · exact ⟨by simp, forall_mem_singleton_ne _ (by decide)⟩
  case nameSet =>
    simp only [process_command, if_neg hq, hcl]
    split
    · exact ⟨by simp, forall_mem_singleton_ne _ (by decide)⟩
    · next i heq =>
      split_ifs with hz
      · exact ⟨by simp, forall_mem_singleton_ne _ (append_ne_empty_right _ _ (by decide))⟩
      · exfalso
        push_neg at hz
        have htrue : nameBranchSilent q = true := by
          simp [nameBranchSilent, hcl, heq, hz]
        rw [hsilent] at htrue
        exact absurd htrue (by decide)
  case help =>
    simp only [process_command, if_neg hq, hcl]
    exact ⟨by simp, forall_mem_singleton_ne _ (by decide)⟩
  case exitCmd =>
    simp only [process_command, if_neg hq, hcl]
    exact ⟨by simp, forall_mem_singleton_ne _ (append_ne_empty_right _ _ (by decide))⟩
  case fallback =>
    simp only [process_command, if_neg hq, hcl]
    split_ifs
    · exact ⟨by simp, forall_mem_singleton_ne _ (append_ne_empty_right _ _ (by decide))⟩
    · exact ⟨by simp, forall_mem_singleton_ne _ (hai q)⟩
    · exact ⟨by simp, forall_mem_singleton_ne _ (suggestionChoice_ne_empty _)⟩

/-- C1 witness: a greeting utterance yields a non-empty reply list of
non-empty strings. -/
theorem router_total_nonempty_reply_witness :
    (process_command env0 rs0 "hello").replies ≠ [] := by
  have henv : EnvOk env0 := by
    refine ⟨by decide, by decide, by decide, by decide, fun _ => ?_, fun _ => ?_,
      fun _ => ?_, fun a => ?_⟩
    · show ("Some information." : String) ≠ ""
      decide
    · show ("A summary." : String) ≠ ""
      decide
    · show ("An answer." : String) ≠ ""
      decide
    · show ("Opening " : String) ++ a ≠ ""
      exact append_ne_empty_left _ _ (by decide)
  exact (router_total_nonempty_reply env0 rs0 "hello" henv (by decide) (by decide)).1

end NoahSpec
